import Mathlib

/-!
# Verification of the data-sync-tool core

A shallow embedding of the task-manager and supervisor core of the
`data-sync-tool` repository, together with theorems settling the frozen
claims C1–C10 about it.

The embedding follows the Rust sources:
* `infrastructure/sync/task_manager.rs` — `SyncTaskQueue`, `pop_front`,
  `push_back`, `push_front`, `add_tasks`, `all_queues_are_empty`, `stop`,
  the failure-handling task and the main polling loop of `TaskManager::start`;
* `infrastructure/sync_engine/worker/supervisor.rs` — the supervisor event
  loop: `Shutdown`, `AssignPlan`, `CancelPlan` command arms and the
  worker-response arms;
* `domain/synchronization/rate_limiter.rs` — the `RateLimitStatus` contract.

Channels are modelled as output logs, UUIDs as naturals, and the
cooperative event loops as explicit step functions on a state record.
-/

set_option linter.unusedVariables false

namespace DataSyncTool

/-- A synchronization task, restricted to the fields the task manager
inspects: a task id and the owning dataset id (`SyncTask::dataset_id()`
returns an `Option` in the source). -/
structure SyncTask where
  id : Nat
  dataset_id : Option Nat
deriving DecidableEq, Repr

/-- `RateLimitStatus` from `domain/synchronization/rate_limiter.rs`. -/
inductive RateLimitStatus where
  | Ok (remaining : Nat)
  | RequestPerMinuteExceeded (should_start_cooldown : Bool) (seconds_left : Int)
  | RequestPerDayExceeded
deriving DecidableEq, Repr

/-- Modelled from the spec: the concrete `WebRequestRateLimiter`
implementation (`sync_rate_limiter.rs`) is not among the provided sources;
its state follows §4.1 of the specification: minute tokens, day tokens,
an active-cooldown flag and the cooldown countdown.  `countdownStarts`
instruments how many timer tasks have been spawned by `start_countdown`. -/
structure WebRequestRateLimiter where
  remainingMinuteRequests : Nat
  remainingDailyRequests : Nat
  cooldownActive : Bool
  cooldownSecondsLeft : Int
  countdownStarts : Nat
deriving DecidableEq, Repr

/-- Modelled from the spec: `can_proceed` returns `Ok` (consuming one minute
and one day token) while both budgets are positive, `RequestPerDayExceeded`
once the day budget is exhausted, and `RequestPerMinuteExceeded` with the
`should_start_cooldown` flag set precisely when no countdown is active yet
(§4.1: the flag is reported `true` exactly once, then `false` while the
countdown runs). -/
def WebRequestRateLimiter.can_proceed (rl : WebRequestRateLimiter) :
    RateLimitStatus × WebRequestRateLimiter :=
  if rl.remainingDailyRequests = 0 then
    (RateLimitStatus.RequestPerDayExceeded, rl)
  else if rl.remainingMinuteRequests = 0 then
    (RateLimitStatus.RequestPerMinuteExceeded (!rl.cooldownActive) rl.cooldownSecondsLeft, rl)
  else
    (RateLimitStatus.Ok (rl.remainingMinuteRequests - 1),
      { rl with
        remainingMinuteRequests := rl.remainingMinuteRequests - 1,
        remainingDailyRequests := rl.remainingDailyRequests - 1 })

/-- Modelled from the spec: `start_countdown` spawns one cooldown timer task
and returns its handle (modelled as a numeric handle); the limiter then has
an active cooldown. -/
def WebRequestRateLimiter.start_countdown (rl : WebRequestRateLimiter)
    (reset_timer : Bool) : Nat × WebRequestRateLimiter :=
  (rl.countdownStarts,
    { rl with cooldownActive := true, countdownStarts := rl.countdownStarts + 1 })

/-- `SyncTaskQueueValue` from `task_manager.rs` (the cooldown timer task is
modelled by its numeric handle). -/
inductive SyncTaskQueueValue where
  | Task (t : Option SyncTask)
  | RateLimited (timer : Option Nat) (seconds_left : Int)
  | DailyLimitExceeded
deriving DecidableEq, Repr

/-- `SyncTaskQueue`: the task deque (front at the head of the list) and the
optional rate limiter. -/
structure SyncTaskQueue where
  tasks : List SyncTask
  rate_limiter : Option WebRequestRateLimiter
deriving DecidableEq, Repr

/-- `SyncTaskQueue::pop_front` (task_manager.rs lines 61–109): with a rate
limiter present the limiter is consulted first; only on `Ok` is the deque
popped; `RequestPerDayExceeded` maps to `DailyLimitExceeded`;
`RequestPerMinuteExceeded` maps to `RateLimited`, starting the countdown
(once) when the flag is set.  Without a limiter the deque is popped
directly. -/
def SyncTaskQueue.pop_front (q : SyncTaskQueue) :
    SyncTaskQueueValue × SyncTaskQueue :=
  match q.rate_limiter with
  | some rate_limiter =>
    let statusPair := rate_limiter.can_proceed
    match statusPair.1 with
    | RateLimitStatus.Ok _ =>
      match q.tasks with
      | [] => (SyncTaskQueueValue.Task none, { q with rate_limiter := some statusPair.2 })
      | t :: rest =>
        (SyncTaskQueueValue.Task (some t),
          { q with tasks := rest, rate_limiter := some statusPair.2 })
    | RateLimitStatus.RequestPerDayExceeded =>
      (SyncTaskQueueValue.DailyLimitExceeded, { q with rate_limiter := some statusPair.2 })
    | RateLimitStatus.RequestPerMinuteExceeded should_start_cooldown seconds_left =>
      if should_start_cooldown then
        let countdownPair := statusPair.2.start_countdown true
        (SyncTaskQueueValue.RateLimited (some countdownPair.1) seconds_left,
          { q with rate_limiter := some countdownPair.2 })
      else
        (SyncTaskQueueValue.RateLimited none seconds_left,
          { q with rate_limiter := some statusPair.2 })
  | none =>
    match q.tasks with
    | [] => (SyncTaskQueueValue.Task none, q)
    | t :: rest => (SyncTaskQueueValue.Task (some t), { q with tasks := rest })

/-- `SyncTaskQueue::push_back`. -/
def SyncTaskQueue.push_back (q : SyncTaskQueue) (task : SyncTask) : SyncTaskQueue :=
  { q with tasks := q.tasks ++ [task] }

/-- `SyncTaskQueue::push_front`. -/
def SyncTaskQueue.push_front (q : SyncTaskQueue) (task : SyncTask) : SyncTaskQueue :=
  { q with tasks := task :: q.tasks }

/-- `SyncTaskQueue::is_empty`. -/
def SyncTaskQueue.is_empty (q : SyncTaskQueue) : Bool :=
  q.tasks.isEmpty

/-- `TaskManagerError` from task_manager.rs. -/
inductive TaskManagerError where
  | RateLimited (timer : Option Nat) (seconds_left : Int)
  | DailyLimitExceeded
deriving DecidableEq, Repr

/-- One value of the `queues` map: the queue together with its remaining
retry budget (`MaxRetry`). -/
structure QueueEntry where
  queue : SyncTaskQueue
  retries_left : Nat
deriving DecidableEq, Repr

/-- The task manager state.  The `queues` map is an insertion-ordered
association list from dataset id to queue entry; the three channels are
modelled by their output logs and closed flags; `idleSleeps` counts the
100 ms idle quanta slept by the main loop; `exited` marks loop exit. -/
structure TaskManager where
  queues : List (Nat × QueueEntry)
  taskOut : List SyncTask := []
  errorOut : List TaskManagerError := []
  taskChannelClosed : Bool := false
  errorChannelClosed : Bool := false
  failedChannelClosed : Bool := false
  idleSleeps : Nat := 0
  exited : Bool := false
deriving DecidableEq, Repr

/-- Association-list lookup, mirroring `HashMap::get` on the queues map. -/
def lookupQueue : List (Nat × QueueEntry) → Nat → Option QueueEntry
  | [], _ => none
  | (d, e) :: rest, dataset_id =>
    if d = dataset_id then some e else lookupQueue rest dataset_id

/-- Point update of the queues map, mirroring in-place mutation through
`HashMap::get_mut`. -/
def updateQueue : List (Nat × QueueEntry) → Nat → (QueueEntry → QueueEntry) →
    List (Nat × QueueEntry)
  | [], _, _ => []
  | (d, e) :: rest, dataset_id, f =>
    if d = dataset_id then (d, f e) :: rest
    else (d, e) :: updateQueue rest dataset_id f

/-- One iteration of the loop body of `TaskManager::add_tasks`: a task whose
`dataset_id` is `None`, or has no registered queue, is skipped; otherwise the
task is pushed to the back of its dataset's queue. -/
def addOneTask (queues : List (Nat × QueueEntry)) (task : SyncTask) :
    List (Nat × QueueEntry) :=
  match task.dataset_id with
  | none => queues
  | some dataset_id =>
    match lookupQueue queues dataset_id with
    | none => queues
    | some _ =>
      updateQueue queues dataset_id (fun e => { e with queue := e.queue.push_back task })

/-- `TaskManager::add_tasks` (task_manager.rs lines 197–210). -/
def TaskManager.add_tasks (tm : TaskManager) (tasks : List SyncTask) : TaskManager :=
  { tm with queues := tasks.foldl addOneTask tm.queues }

/-- One message of the `handle_failures` task spawned by
`TaskManager::start` (task_manager.rs lines 244–256): if the dataset has a
registered queue and `retries_left > 0`, the failed task is pushed to the
BACK of the queue and the budget decremented; otherwise the task is
dropped. -/
def TaskManager.handleFailedTask (tm : TaskManager) (dataset_id : Nat)
    (failed_task : SyncTask) : TaskManager :=
  match lookupQueue tm.queues dataset_id with
  | none => tm
  | some e =>
    if e.retries_left > 0 then
      { tm with
        queues := updateQueue tm.queues dataset_id
          (fun e =>
            { queue := e.queue.push_back failed_task,
              retries_left := e.retries_left - 1 }) }
    else tm

/-- `TaskManager::all_queues_are_empty`. -/
def TaskManager.all_queues_are_empty (tm : TaskManager) : Bool :=
  tm.queues.all (fun p => p.2.queue.is_empty)

/-- `TaskManager::stop`: closes the task, error and failed-task channels. -/
def TaskManager.stop (tm : TaskManager) : TaskManager :=
  { tm with
    taskChannelClosed := true,
    errorChannelClosed := true,
    failedChannelClosed := true }

/-- Result of one pass over the queues map in the main loop. -/
structure PollResult where
  queues : List (Nat × QueueEntry)
  tasksSent : List SyncTask
  errorsSent : List TaskManagerError
  anyTaskFound : Bool
deriving DecidableEq, Repr

/-- The per-queue `for` loop of `TaskManager::start` (task_manager.rs lines
269–300): each queue is popped once, in insertion order; a popped task goes
to the task channel, `RateLimited` and `DailyLimitExceeded` go to the error
channel; no queue is ever removed. -/
def pollQueues : List (Nat × QueueEntry) → PollResult
  | [] => { queues := [], tasksSent := [], errorsSent := [], anyTaskFound := false }
  | (d, e) :: rest =>
    let popped := e.queue.pop_front
    let restResult := pollQueues rest
    match popped.1 with
    | SyncTaskQueueValue.Task (some t) =>
      { queues := (d, { e with queue := popped.2 }) :: restResult.queues,
        tasksSent := t :: restResult.tasksSent,
        errorsSent := restResult.errorsSent,
        anyTaskFound := true }
    | SyncTaskQueueValue.Task none =>
      { queues := (d, { e with queue := popped.2 }) :: restResult.queues,
        tasksSent := restResult.tasksSent,
        errorsSent := restResult.errorsSent,
        anyTaskFound := restResult.anyTaskFound }
    | SyncTaskQueueValue.RateLimited timer seconds_left =>
      { queues := (d, { e with queue := popped.2 }) :: restResult.queues,
        tasksSent := restResult.tasksSent,
        errorsSent := TaskManagerError.RateLimited timer seconds_left :: restResult.errorsSent,
        anyTaskFound := restResult.anyTaskFound }
    | SyncTaskQueueValue.DailyLimitExceeded =>
      { queues := (d, { e with queue := popped.2 }) :: restResult.queues,
        tasksSent := restResult.tasksSent,
        errorsSent := TaskManagerError.DailyLimitExceeded :: restResult.errorsSent,
        anyTaskFound := restResult.anyTaskFound }

/-- One iteration of the main loop of `TaskManager::start` (lines 258–307):
if all queues are empty the channels are closed and the loop exits;
otherwise every queue is polled once and, if no task was found in the whole
pass, the loop sleeps for one idle quantum. -/
def TaskManager.pollOnce (tm : TaskManager) : TaskManager :=
  if tm.all_queues_are_empty then
    { tm.stop with exited := true }
  else
    let r := pollQueues tm.queues
    { tm with
      queues := r.queues,
      taskOut := tm.taskOut ++ r.tasksSent,
      errorOut := tm.errorOut ++ r.errorsSent,
      idleSleeps := if r.anyTaskFound then tm.idleSleeps else tm.idleSleeps + 1 }

/-- Fuelled iteration of the main loop. -/
def TaskManager.run : Nat → TaskManager → TaskManager
  | 0, tm => tm
  | fuel + 1, tm => if tm.exited then tm else TaskManager.run fuel tm.pollOnce

/-- True when some queue's limiter has an active cooldown. -/
def TaskManager.cooldownOutstanding (tm : TaskManager) : Bool :=
  tm.queues.any (fun p =>
    match p.2.queue.rate_limiter with
    | some rl => rl.cooldownActive
    | none => false)

/-- `WorkerCommand` (sync_engine/worker/commands.rs), with the broadcast
task receiver of `AssignPlan` elided. -/
inductive WorkerCommand where
  | Shutdown
  | AssignPlan (plan_id : Nat) (start_immediately : Bool)
  | StartSync
  | CancelPlan (plan_id : Nat)
  | CheckStatus
deriving DecidableEq, Repr

/-- `SupervisorResponse` (sync_engine/worker/commands.rs). -/
inductive SupervisorResponse where
  | ShutdownComplete
  | PlanAssigned (plan_id : Nat)
  | PlanCancelled (plan_id : Nat)
  | AllStarted
  | AllCancelled
  | Error (message : String)
deriving DecidableEq, Repr

/-- Worker responses, as matched by the supervisor's event loop
(supervisor.rs lines 265–289); `PlanCancelled` (present in the command
module) has no arm there and is treated as ignored. -/
inductive WorkerResponse where
  | ShutdownComplete (worker_id : Nat)
  | PlanAssignmentConfirmed (worker_id : Nat) (plan_id : Nat)
  | PlanCancelled (worker_id : Nat) (plan_id : Nat)
  | StartOk
  | StartFailed (reason : String)
deriving DecidableEq, Repr

/-- The supervisor state.  `worker_assignment` is the ordered association
list from worker id to its optional assigned plan; `workerCmdTxIds` are the
keys of `worker_cmd_tx` (the per-worker command senders); `workerCmdOut`
logs every command sent to a worker; `respOut` logs the supervisor's own
responses; `nextWorkerId` generates fresh worker ids for spawned workers. -/
structure Supervisor where
  plans_to_sync : List Nat
  worker_assignment : List (Nat × Option Nat)
  workerCmdTxIds : List Nat
  workerCmdOut : List (Nat × WorkerCommand) := []
  respOut : List SupervisorResponse := []
  nextWorkerId : Nat
  stopped : Bool := false
deriving DecidableEq, Repr

/-- `Supervisor::new` with `n_workers` workers: every worker starts with an
empty assignment slot. -/
def initSupervisor (n_workers : Nat) : Supervisor :=
  { plans_to_sync := [],
    worker_assignment := (List.range n_workers).map (fun i => (i, none)),
    workerCmdTxIds := List.range n_workers,
    nextWorkerId := n_workers }

/-- `HashSet::insert` on `plans_to_sync`. -/
def insertPlan (plans : List Nat) (plan_id : Nat) : List Nat :=
  if plan_id ∈ plans then plans else plans ++ [plan_id]

/-- `HashSet::remove` on `plans_to_sync`. -/
def removePlan (plans : List Nat) (plan_id : Nat) : List Nat :=
  plans.filter (fun p => p ≠ plan_id)

/-- The `find_map` over `worker_assignment` in the `AssignPlan` arm
(supervisor.rs lines 150–159): the first worker whose slot is `None` gets
the plan written into its slot; the function returns the chosen worker id
and the updated map. -/
def assignFirstIdle : List (Nat × Option Nat) → Nat →
    Option Nat × List (Nat × Option Nat)
  | [], _ => (none, [])
  | (wid, slot) :: rest, plan_id =>
    match slot with
    | none => (some wid, (wid, some plan_id) :: rest)
    | some p =>
      let found := assignFirstIdle rest plan_id
      (found.1, (wid, some p) :: found.2)

/-- The `AssignPlan` arm of the supervisor loop (supervisor.rs lines
145–200): the plan is registered in `plans_to_sync`; the first idle worker
gets it written into its slot; if none is idle a fresh worker is spawned
with an empty slot; the chosen worker is sent `WorkerCommand::AssignPlan`
(the task-channel handshake with the task manager is modelled as
succeeding) and `SupervisorResponse::PlanAssigned` is emitted. -/
def Supervisor.handleAssignPlan (s : Supervisor) (plan_id : Nat)
    (start_immediately : Bool) : Supervisor :=
  let plans := insertPlan s.plans_to_sync plan_id
  let found := assignFirstIdle s.worker_assignment plan_id
  match found.1 with
  | some wid =>
    { s with
      plans_to_sync := plans,
      worker_assignment := found.2,
      workerCmdOut := s.workerCmdOut ++ [(wid, WorkerCommand.AssignPlan plan_id start_immediately)],
      respOut := s.respOut ++ [SupervisorResponse.PlanAssigned plan_id] }
  | none =>
    { s with
      plans_to_sync := plans,
      worker_assignment := s.worker_assignment ++ [(s.nextWorkerId, none)],
      workerCmdTxIds := s.workerCmdTxIds ++ [s.nextWorkerId],
      nextWorkerId := s.nextWorkerId + 1,
      workerCmdOut := s.workerCmdOut ++ [(s.nextWorkerId, WorkerCommand.AssignPlan plan_id start_immediately)],
      respOut := s.respOut ++ [SupervisorResponse.PlanAssigned plan_id] }

/-- The `CancelPlan` arm of the supervisor loop (supervisor.rs lines
201–208): the plan is removed from `plans_to_sync` and
`SupervisorResponse::PlanCancelled` is emitted; nothing else happens. -/
def Supervisor.handleCancelPlan (s : Supervisor) (plan_id : Nat) : Supervisor :=
  { s with
    plans_to_sync := removePlan s.plans_to_sync plan_id,
    respOut := s.respOut ++ [SupervisorResponse.PlanCancelled plan_id] }

/-- The broadcast part of the `Shutdown` arm (supervisor.rs lines 120–131):
`WorkerCommand::Shutdown` is sent to every worker in `worker_cmd_tx`. -/
def broadcastShutdown (s : Supervisor) : Supervisor :=
  { s with
    workerCmdOut := s.workerCmdOut ++
      s.workerCmdTxIds.map (fun wid => (wid, WorkerCommand.Shutdown)) }

/-- The wait loop of the `Shutdown` arm (supervisor.rs lines 133–143):
`while worker_assignment.len() > 0 { sleep }`, then mark the supervisor
stopped and emit `SupervisorResponse::ShutdownComplete`.  The loop body
only sleeps; it is given as a fuelled recursion whose body leaves the
state unchanged — `none` means the wait was still spinning when the fuel
ran out. -/
def shutdownWait : Nat → Supervisor → Option Supervisor
  | 0, _ => none
  | fuel + 1, s =>
    if s.worker_assignment.length > 0 then shutdownWait fuel s
    else
      some { s with
        stopped := true,
        respOut := s.respOut ++ [SupervisorResponse.ShutdownComplete] }

/-- `HashMap::insert` on `worker_assignment`. -/
def insertAssignment (assignment : List (Nat × Option Nat)) (worker_id : Nat)
    (slot : Option Nat) : List (Nat × Option Nat) :=
  if assignment.any (fun p => p.1 = worker_id) then
    assignment.map (fun p => if p.1 = worker_id then (p.1, slot) else p)
  else assignment ++ [(worker_id, slot)]

/-- The worker-response arm of the supervisor loop (supervisor.rs lines
265–289): `ShutdownComplete(worker_id)` removes the worker from
`worker_assignment`; `PlanAssignmentConfirmed` records the assignment;
every other response leaves the state unchanged (in particular there is no
arm for a worker's `PlanCancelled`). -/
def Supervisor.handleWorkerResponse (s : Supervisor) (r : WorkerResponse) : Supervisor :=
  match r with
  | WorkerResponse.ShutdownComplete worker_id =>
    { s with worker_assignment := s.worker_assignment.filter (fun p => p.1 ≠ worker_id) }
  | WorkerResponse.PlanAssignmentConfirmed worker_id plan_id =>
    { s with worker_assignment := insertAssignment s.worker_assignment worker_id (some plan_id) }
  | _ => s

/-- The plan ids present as `Some` values in `worker_assignment`, in map
order. -/
def somePlans (assignment : List (Nat × Option Nat)) : List Nat :=
  assignment.filterMap Prod.snd

/-- The number of distinct plan ids present as `Some` values. -/
def distinctSomeCount (assignment : List (Nat × Option Nat)) : Nat :=
  (somePlans assignment).dedup.length

/-- The number of idle (`None`) slots in `worker_assignment`. -/
def countIdle (assignment : List (Nat × Option Nat)) : Nat :=
  (assignment.filter (fun p => p.2 = none)).length

/-- All occupied slots precede all idle slots — the shape the assignment
map keeps while only `AssignPlan` commands are processed. -/
def somesThenNones : List (Nat × Option Nat) → Bool
  | [] => true
  | (_, none) :: rest => rest.all (fun p => p.2 = none)
  | (_, some _) :: rest => somesThenNones rest

/-- Fold assigning a list of plans, in order, to a fresh supervisor with
`n` workers. -/
def assignAll (n : Nat) (plans : List Nat) : Supervisor :=
  plans.foldl (fun s p => s.handleAssignPlan p false) (initSupervisor n)

/-! ## Concrete states used by counterexamples and witnesses -/

/-- One queue for dataset 0 holding one untried task, with a retry budget
of 1 and no limiter. -/
def c1Tm : TaskManager :=
  { queues := [(0, { queue := { tasks := [{ id := 1, dataset_id := some 0 }], rate_limiter := none },
                     retries_left := 1 })] }

/-- An empty queue guarded by a limiter with 5 minute tokens and 3 day
tokens left. -/
def c2Queue : SyncTaskQueue :=
  { tasks := [],
    rate_limiter := some
      { remainingMinuteRequests := 5, remainingDailyRequests := 3,
        cooldownActive := false, cooldownSecondsLeft := 60, countdownStarts := 0 } }

/-- A supervisor with one worker currently assigned plan 7. -/
def c4Sup : Supervisor :=
  { plans_to_sync := [7], worker_assignment := [(0, some 7)],
    workerCmdTxIds := [0], nextWorkerId := 1 }

/-- One registered dataset (id 0) with an empty queue and no limiter. -/
def c10Tm : TaskManager :=
  { queues := [(0, { queue := { tasks := [], rate_limiter := none }, retries_left := 0 })] }

/-- Queue 0 is day-exhausted with one task still queued; queue 1 has three
tasks and no limiter. -/
def c3Tm : TaskManager :=
  { queues :=
      [(0, { queue := { tasks := [{ id := 1, dataset_id := some 0 }],
                        rate_limiter := some
                          { remainingMinuteRequests := 10, remainingDailyRequests := 0,
                            cooldownActive := false, cooldownSecondsLeft := 0,
                            countdownStarts := 0 } },
             retries_left := 0 }),
       (1, { queue := { tasks := [{ id := 2, dataset_id := some 1 },
                                  { id := 3, dataset_id := some 1 },
                                  { id := 4, dataset_id := some 1 }],
                        rate_limiter := none },
             retries_left := 0 })] }

/-- All queues empty while a cooldown is still outstanding (the limiter's
countdown is active). -/
def c5Tm : TaskManager :=
  { queues :=
      [(0, { queue := { tasks := [],
                        rate_limiter := some
                          { remainingMinuteRequests := 0, remainingDailyRequests := 5,
                            cooldownActive := true, cooldownSecondsLeft := 30,
                            countdownStarts := 1 } },
             retries_left := 0 })] }

/-- A limiter with the minute quota exhausted and no active cooldown. -/
def c6Rl : WebRequestRateLimiter :=
  { remainingMinuteRequests := 0, remainingDailyRequests := 5,
    cooldownActive := false, cooldownSecondsLeft := 60, countdownStarts := 0 }

/-- A nonempty queue guarded by `c6Rl`. -/
def c6Queue : SyncTaskQueue :=
  { tasks := [{ id := 1, dataset_id := some 0 }], rate_limiter := some c6Rl }

/-- The queue entry holding `c6Queue`. -/
def c6Entry : QueueEntry :=
  { queue := c6Queue, retries_left := 0 }

/-- A task manager owning only `c6Queue`. -/
def c6Tm : TaskManager :=
  { queues := [(0, c6Entry)] }

/-- The day-exhaustion scenario: `daily_limit = 2` and five queued
tasks. -/
def c7Tm : TaskManager :=
  { queues :=
      [(0, { queue := { tasks := [{ id := 1, dataset_id := some 0 },
                                  { id := 2, dataset_id := some 0 },
                                  { id := 3, dataset_id := some 0 },
                                  { id := 4, dataset_id := some 0 },
                                  { id := 5, dataset_id := some 0 }],
                        rate_limiter := some
                          { remainingMinuteRequests := 100, remainingDailyRequests := 2,
                            cooldownActive := false, cooldownSecondsLeft := 1,
                            countdownStarts := 0 } },
             retries_left := 0 })] }

/-- A day-exhausted queue used to instantiate C7's frame property. -/
def c7Queue : SyncTaskQueue :=
  { tasks := [{ id := 9, dataset_id := some 0 }],
    rate_limiter := some
      { remainingMinuteRequests := 1, remainingDailyRequests := 0,
        cooldownActive := false, cooldownSecondsLeft := 0, countdownStarts := 0 } }

/-! ## Lemmas about the queues map -/

theorem lookupQueue_updateQueue_self (qs : List (Nat × QueueEntry)) (d : Nat)
    (f : QueueEntry → QueueEntry) (e : QueueEntry)
    (h : lookupQueue qs d = some e) :
    lookupQueue (updateQueue qs d f) d = some (f e) := by
  induction qs with
  | nil => simp [lookupQueue] at h
  | cons p rest ih =>
    obtain ⟨d0, e0⟩ := p
    by_cases hd : d0 = d
    · subst hd
      simp [lookupQueue, updateQueue] at h ⊢
      exact congrArg f h
    · simp [lookupQueue, updateQueue, hd] at h ⊢
      exact ih h

theorem lookupQueue_updateQueue_of_ne (qs : List (Nat × QueueEntry)) (d d2 : Nat)
    (f : QueueEntry → QueueEntry) (hne : d2 ≠ d) :
    lookupQueue (updateQueue qs d2 f) d = lookupQueue qs d := by
  induction qs with
  | nil => simp [updateQueue]
  | cons p rest ih =>
    obtain ⟨d0, e0⟩ := p
    by_cases hd : d0 = d2
    · subst hd
      simp [lookupQueue, updateQueue, hne]
    · simp [lookupQueue, updateQueue, hd]
      by_cases hd0 : d0 = d
      · simp [hd0]
      · simp [hd0, ih]

theorem updateQueue_keys (qs : List (Nat × QueueEntry)) (d : Nat)
    (f : QueueEntry → QueueEntry) :
    (updateQueue qs d f).map Prod.fst = qs.map Prod.fst := by
  induction qs with
  | nil => rfl
  | cons p rest ih =>
    obtain ⟨d0, e0⟩ := p
    by_cases hd : d0 = d
    · simp [updateQueue, hd]
    · simp [updateQueue, hd, ih]

theorem addOneTask_keys (qs : List (Nat × QueueEntry)) (t : SyncTask) :
    (addOneTask qs t).map Prod.fst = qs.map Prod.fst := by
  cases hdid : t.dataset_id with
  | none => simp [addOneTask, hdid]
  | some did =>
    cases hl : lookupQueue qs did with
    | none => simp [addOneTask, hdid, hl]
    | some e => simp [addOneTask, hdid, hl, updateQueue_keys]

theorem foldl_addOneTask_keys (ts : List SyncTask) (qs : List (Nat × QueueEntry)) :
    (ts.foldl addOneTask qs).map Prod.fst = qs.map Prod.fst := by
  induction ts generalizing qs with
  | nil => rfl
  | cons t ts ih => rw [List.foldl_cons, ih, addOneTask_keys]

theorem lookup_foldl_addOneTask (ts : List SyncTask) (qs : List (Nat × QueueEntry))
    (d : Nat) (e : QueueEntry) (h : lookupQueue qs d = some e) :
    lookupQueue (ts.foldl addOneTask qs) d =
      some { e with queue := { e.queue with
        tasks := e.queue.tasks ++ ts.filter (fun t => t.dataset_id = some d) } } := by
  induction ts generalizing qs e with
  | nil => simpa using h
  | cons t ts ih =>
    rw [List.foldl_cons]
    by_cases ht : t.dataset_id = some d
    · have hupd : addOneTask qs t =
          updateQueue qs d (fun e2 => { e2 with queue := e2.queue.push_back t }) := by
        simp [addOneTask, ht, h]
      have hlook2 : lookupQueue (addOneTask qs t) d =
          some { e with queue := e.queue.push_back t } := by
        rw [hupd]
        exact lookupQueue_updateQueue_self qs d _ e h
      have := ih (addOneTask qs t) { e with queue := e.queue.push_back t } hlook2
      rw [this]
      simp [SyncTaskQueue.push_back, List.filter_cons, ht]
    · have hlook2 : lookupQueue (addOneTask qs t) d = lookupQueue qs d := by
        cases hdid : t.dataset_id with
        | none => simp [addOneTask, hdid]
        | some did =>
          cases hl : lookupQueue qs did with
          | none => simp [addOneTask, hdid, hl]
          | some e2 =>
            have hne : did ≠ d := by
              intro hcontra
              exact ht (hdid.trans (congrArg some hcontra))
            simp [addOneTask, hdid, hl]
            exact lookupQueue_updateQueue_of_ne qs d did _ hne
      have := ih (addOneTask qs t) e (hlook2.trans h)
      rw [this]
      simp [List.filter_cons, ht]

/-! ## Lemmas about the polling pass -/

theorem pop_front_daily_eq (q : SyncTaskQueue) (rl : WebRequestRateLimiter)
    (hrl : q.rate_limiter = some rl) (hday : rl.remainingDailyRequests = 0) :
    q.pop_front = (SyncTaskQueueValue.DailyLimitExceeded, q) := by
  obtain ⟨ts, orl⟩ := q
  simp only at hrl
  subst hrl
  simp [SyncTaskQueue.pop_front, WebRequestRateLimiter.can_proceed, hday]

theorem pollQueues_keys (l : List (Nat × QueueEntry)) :
    (pollQueues l).queues.map Prod.fst = l.map Prod.fst := by
  induction l with
  | nil => rfl
  | cons p rest ih =>
    obtain ⟨d, e⟩ := p
    cases hv : (e.queue.pop_front).1 with
    | Task t =>
      cases t with
      | none => simp [pollQueues, hv, ih]
      | some t => simp [pollQueues, hv, ih]
    | RateLimited timer secs => simp [pollQueues, hv, ih]
    | DailyLimitExceeded => simp [pollQueues, hv, ih]

theorem pollQueues_rate_limited_mem (l : List (Nat × QueueEntry)) (d : Nat)
    (e : QueueEntry) (timer : Option Nat) (secs : Int)
    (hmem : (d, e) ∈ l)
    (hpop : (e.queue.pop_front).1 = SyncTaskQueueValue.RateLimited timer secs) :
    TaskManagerError.RateLimited timer secs ∈ (pollQueues l).errorsSent := by
  induction l with
  | nil => cases hmem
  | cons p rest ih =>
    rcases List.mem_cons.mp hmem with heq | hmem2
    · subst heq
      simp [pollQueues, hpop]
    · obtain ⟨d0, e0⟩ := p
      cases hv : (e0.queue.pop_front).1 with
      | Task t =>
        cases t with
        | none => simpa [pollQueues, hv] using ih hmem2
        | some t => simpa [pollQueues, hv] using ih hmem2
      | RateLimited timer0 secs0 =>
        simp [pollQueues, hv]
        exact Or.inr (ih hmem2)
      | DailyLimitExceeded =>
        simpa [pollQueues, hv] using ih hmem2

theorem pollQueues_daily (l : List (Nat × QueueEntry)) (d : Nat) (e : QueueEntry)
    (rl : WebRequestRateLimiter)
    (hmem : (d, e) ∈ l) (hrl : e.queue.rate_limiter = some rl)
    (hday : rl.remainingDailyRequests = 0) :
    TaskManagerError.DailyLimitExceeded ∈ (pollQueues l).errorsSent ∧
    (d, e) ∈ (pollQueues l).queues := by
  induction l with
  | nil => cases hmem
  | cons p rest ih =>
    rcases List.mem_cons.mp hmem with heq | hmem2
    · subst heq
      have hpop := pop_front_daily_eq e.queue rl hrl hday
      constructor
      · simp [pollQueues, hpop]
      · simp [pollQueues, hpop]
    · obtain ⟨d0, e0⟩ := p
      have hrec := ih hmem2
      cases hv : (e0.queue.pop_front).1 with
      | Task t =>
        cases t with
        | none => exact ⟨by simp [pollQueues, hv, hrec.1], by simp [pollQueues, hv, hrec.2]⟩
        | some t => exact ⟨by simp [pollQueues, hv, hrec.1], by simp [pollQueues, hv, hrec.2]⟩
      | RateLimited timer0 secs0 =>
        exact ⟨by simp [pollQueues, hv, hrec.1], by simp [pollQueues, hv, hrec.2]⟩
      | DailyLimitExceeded =>
        exact ⟨by simp [pollQueues, hv, hrec.1], by simp [pollQueues, hv, hrec.2]⟩

/-! ## Claim C1 -/

/-- Claim C1, counterexample: the failure handler of `TaskManager::start`
pushes the retried task to the BACK of the queue, not the front.  With one
untried task (id 1) queued for dataset 0 and `retries_left = 1`, handling
the failed task (id 2) yields the order `[1, 2]`, not the claimed
`[2, 1]`. -/
theorem c1_counterexample :
    (c1Tm.handleFailedTask 0 { id := 2, dataset_id := some 0 }).queues =
      [(0, { queue := { tasks := [{ id := 1, dataset_id := some 0 },
                                  { id := 2, dataset_id := some 0 }],
                        rate_limiter := none },
             retries_left := 0 })] ∧
    (c1Tm.handleFailedTask 0 { id := 2, dataset_id := some 0 }).queues ≠
      [(0, { queue := { tasks := [{ id := 2, dataset_id := some 0 },
                                  { id := 1, dataset_id := some 0 }],
                        rate_limiter := none },
             retries_left := 0 })] := by
  decide

/-- Claim C1 (amended): for every failed task received on the failed-task
channel while the dataset's `retries_left > 0`, the failure handler pushes
the task to the BACK of that dataset's queue and decrements `retries_left`,
so the retried task is delivered after every untried task of the same
dataset; when `retries_left` is 0 the task is dropped and not
re-enqueued. -/
theorem c1_retry_pushes_back (tm : TaskManager) (dataset_id : Nat) (task : SyncTask)
    (e : QueueEntry) (h : lookupQueue tm.queues dataset_id = some e) :
    (0 < e.retries_left →
      lookupQueue (tm.handleFailedTask dataset_id task).queues dataset_id =
        some { queue := { e.queue with tasks := e.queue.tasks ++ [task] },
               retries_left := e.retries_left - 1 }) ∧
    (e.retries_left = 0 → tm.handleFailedTask dataset_id task = tm) := by
  constructor
  · intro hpos
    have hupd : (tm.handleFailedTask dataset_id task).queues =
        updateQueue tm.queues dataset_id
          (fun e2 => { queue := e2.queue.push_back task,
                       retries_left := e2.retries_left - 1 }) := by
      simp [TaskManager.handleFailedTask, h, hpos]
    rw [hupd]
    have := lookupQueue_updateQueue_self tm.queues dataset_id
      (fun e2 => { queue := e2.queue.push_back task, retries_left := e2.retries_left - 1 }) e h
    rw [this]
    simp [SyncTaskQueue.push_back]
  · intro h0
    simp [TaskManager.handleFailedTask, h, h0]

/-- Witness for C1 at the concrete state `c1Tm`. -/
theorem c1_retry_pushes_back_witness :
    lookupQueue (c1Tm.handleFailedTask 0 { id := 2, dataset_id := some 0 }).queues 0 =
      some { queue := { tasks := [{ id := 1, dataset_id := some 0 },
                                  { id := 2, dataset_id := some 0 }],
                        rate_limiter := none },
             retries_left := 0 } :=
  (c1_retry_pushes_back c1Tm 0 { id := 2, dataset_id := some 0 }
      { queue := { tasks := [{ id := 1, dataset_id := some 0 }], rate_limiter := none },
        retries_left := 1 }
      (by decide)).1 (by decide)

/-! ## Claim C2 -/

/-- Claim C2, counterexample: popping an empty queue that has a rate
limiter still consults the limiter first; on `c2Queue` the pop returns
`Task none` but the limiter's state has changed (a minute and a day token
were consumed). -/
theorem c2_counterexample :
    (c2Queue.pop_front).1 = SyncTaskQueueValue.Task none ∧
    (c2Queue.pop_front).2.rate_limiter ≠ c2Queue.rate_limiter := by
  decide

/-- Claim C2 (amended): `pop_front` on an empty deque with a rate limiter
consults `can_proceed` before looking at the deque: if both budgets are
positive it returns `Task(None)` but consumes one minute and one day
token; if the day budget is exhausted it returns `DailyLimitExceeded`; if
the minute budget is exhausted it returns `RateLimited` (starting the
countdown once when none is active). -/
theorem c2_empty_pop_consults_limiter (q : SyncTaskQueue) (rl : WebRequestRateLimiter)
    (hq : q.tasks = []) (hrl : q.rate_limiter = some rl) :
    (rl.remainingDailyRequests ≠ 0 → rl.remainingMinuteRequests ≠ 0 →
      q.pop_front = (SyncTaskQueueValue.Task none,
        { q with rate_limiter := some { rl with
            remainingMinuteRequests := rl.remainingMinuteRequests - 1,
            remainingDailyRequests := rl.remainingDailyRequests - 1 } })) ∧
    (rl.remainingDailyRequests = 0 →
      q.pop_front = (SyncTaskQueueValue.DailyLimitExceeded,
        { q with rate_limiter := some rl })) ∧
    (rl.remainingDailyRequests ≠ 0 → rl.remainingMinuteRequests = 0 →
      rl.cooldownActive = true →
      q.pop_front = (SyncTaskQueueValue.RateLimited none rl.cooldownSecondsLeft,
        { q with rate_limiter := some rl })) ∧
    (rl.remainingDailyRequests ≠ 0 → rl.remainingMinuteRequests = 0 →
      rl.cooldownActive = false →
      q.pop_front = (SyncTaskQueueValue.RateLimited (some rl.countdownStarts)
          rl.cooldownSecondsLeft,
        { q with rate_limiter := some { rl with
            cooldownActive := true, countdownStarts := rl.countdownStarts + 1 } })) := by
  refine ⟨?_, ?_, ?_, ?_⟩
  · intro hday hmin
    simp [SyncTaskQueue.pop_front, WebRequestRateLimiter.can_proceed, hq, hrl, hday, hmin]
  · intro hday
    simp [SyncTaskQueue.pop_front, WebRequestRateLimiter.can_proceed, hq, hrl, hday]
  · intro hday hmin hcd
    simp [SyncTaskQueue.pop_front, WebRequestRateLimiter.can_proceed, hq, hrl, hday, hmin, hcd]
  · intro hday hmin hcd
    simp [SyncTaskQueue.pop_front, WebRequestRateLimiter.can_proceed,
      WebRequestRateLimiter.start_countdown, hq, hrl, hday, hmin, hcd]

/-- Witness for C2 at the concrete queue `c2Queue`. -/
theorem c2_empty_pop_consults_limiter_witness :
    c2Queue.pop_front = (SyncTaskQueueValue.Task none,
      { c2Queue with rate_limiter := (some
          { remainingMinuteRequests := 4, remainingDailyRequests := 2,
            cooldownActive := false, cooldownSecondsLeft := 60, countdownStarts := 0 }) }) :=
  (c2_empty_pop_consults_limiter c2Queue
      { remainingMinuteRequests := 5, remainingDailyRequests := 3,
        cooldownActive := false, cooldownSecondsLeft := 60, countdownStarts := 0 }
      rfl rfl).1 (by decide) (by decide)

/-! ## Claim C3 -/

/-- Claim C3, counterexample: after queue 0's `pop_front` yields
`DailyLimitExceeded` on the first pass, the TaskManager polls it again on
the second pass — the error channel receives `DailyLimitExceeded` twice —
while queue 1 keeps delivering tasks.  The claim said the queue is marked
dormant and never polled again. -/
theorem c3_counterexample :
    (c3Tm.pollOnce.pollOnce).errorOut =
      [TaskManagerError.DailyLimitExceeded, TaskManagerError.DailyLimitExceeded] ∧
    (c3Tm.pollOnce.pollOnce).taskOut =
      [{ id := 2, dataset_id := some 1 }, { id := 3, dataset_id := some 1 }] := by
  decide

/-- Claim C3 (amended): after a queue's `pop_front` yields
`DailyLimitExceeded`, the TaskManager forwards `Error::DailyLimitExceeded`
on the error channel but does NOT mark the queue dormant: the queue stays
in the map unchanged (so it is polled again, yielding the error again, on
every subsequent pass) and all other queues continue to be polled. -/
theorem c3_daily_queue_retained (tm : TaskManager) (d : Nat) (e : QueueEntry)
    (rl : WebRequestRateLimiter)
    (hne : tm.all_queues_are_empty = false)
    (hmem : (d, e) ∈ tm.queues)
    (hrl : e.queue.rate_limiter = some rl)
    (hday : rl.remainingDailyRequests = 0) :
    TaskManagerError.DailyLimitExceeded ∈ (tm.pollOnce).errorOut ∧
    (d, e) ∈ (tm.pollOnce).queues ∧
    (tm.pollOnce).queues.map Prod.fst = tm.queues.map Prod.fst := by
  have h := pollQueues_daily tm.queues d e rl hmem hrl hday
  have hkeys := pollQueues_keys tm.queues
  refine ⟨?_, ?_, ?_⟩
  · simp [TaskManager.pollOnce, hne, h.1]
  · simp [TaskManager.pollOnce, hne, h.2]
  · simp [TaskManager.pollOnce, hne, hkeys]

/-- Witness for C3 at the concrete state `c3Tm` (queue 0 is
day-exhausted). -/
theorem c3_daily_queue_retained_witness :
    TaskManagerError.DailyLimitExceeded ∈ (c3Tm.pollOnce).errorOut ∧
    (0, { queue := { tasks := [{ id := 1, dataset_id := some 0 }],
                     rate_limiter := some
                       { remainingMinuteRequests := 10, remainingDailyRequests := 0,
                         cooldownActive := false, cooldownSecondsLeft := 0,
                         countdownStarts := 0 } },
          retries_left := 0 }) ∈ (c3Tm.pollOnce).queues ∧
    (c3Tm.pollOnce).queues.map Prod.fst = c3Tm.queues.map Prod.fst :=
  c3_daily_queue_retained c3Tm 0
    { queue := { tasks := [{ id := 1, dataset_id := some 0 }],
                 rate_limiter := some
                   { remainingMinuteRequests := 10, remainingDailyRequests := 0,
                     cooldownActive := false, cooldownSecondsLeft := 0,
                     countdownStarts := 0 } },
      retries_left := 0 }
    { remainingMinuteRequests := 10, remainingDailyRequests := 0,
      cooldownActive := false, cooldownSecondsLeft := 0, countdownStarts := 0 }
    (by decide) (by decide) rfl rfl

/-! ## Claim C5 -/

/-- Claim C5, counterexample: on `c5Tm` all queues are empty while a
cooldown is still outstanding, and the main loop nevertheless exits — the
exit test only checks queue emptiness, not cooldowns. -/
theorem c5_counterexample :
    c5Tm.all_queues_are_empty = true ∧
    c5Tm.cooldownOutstanding = true ∧
    (c5Tm.pollOnce).exited = true := by
  decide

/-- Claim C5 (amended): the TaskManager main loop exits exactly when all
queues are empty, regardless of outstanding cooldowns; at exit it closes
the task, error and failed-task channels; under that precondition the loop
exits on its very first pass without sleeping any idle quantum (hence
within the claimed 2 idle quanta). -/
theorem c5_exit_iff_all_empty (tm : TaskManager) (hrun : tm.exited = false) :
    ((tm.pollOnce).exited = true ↔ tm.all_queues_are_empty = true) ∧
    (tm.all_queues_are_empty = true →
      (tm.pollOnce).taskChannelClosed = true ∧
      (tm.pollOnce).errorChannelClosed = true ∧
      (tm.pollOnce).failedChannelClosed = true ∧
      (tm.pollOnce).idleSleeps = tm.idleSleeps) := by
  by_cases he : tm.all_queues_are_empty
  · simp [TaskManager.pollOnce, TaskManager.stop, he]
  · simp [TaskManager.pollOnce, TaskManager.stop, he, hrun]

/-- Witness for C5 at the concrete state `c5Tm`. -/
theorem c5_exit_iff_all_empty_witness :
    (((c5Tm.pollOnce).exited = true ↔ c5Tm.all_queues_are_empty = true) ∧
    (c5Tm.all_queues_are_empty = true →
      (c5Tm.pollOnce).taskChannelClosed = true ∧
      (c5Tm.pollOnce).errorChannelClosed = true ∧
      (c5Tm.pollOnce).failedChannelClosed = true ∧
      (c5Tm.pollOnce).idleSleeps = c5Tm.idleSleeps)) :=
  c5_exit_iff_all_empty c5Tm rfl

/-! ## Claim C6 -/

/-- Claim C6: when the rate limiter reports the minute quota exceeded with
the cooldown flag set, `pop_front` invokes `start_countdown` exactly once
(the spawned-timer count rises by one and the handle is returned) and
yields `RateLimited(Some(timer), seconds_left)`; with the flag clear it
yields `RateLimited(None, seconds_left)` leaving the limiter untouched;
and the TaskManager forwards the returned timer and seconds on the error
channel as `Error::RateLimited` while retaining the queue. -/
theorem c6_minute_exceeded_cooldown (q : SyncTaskQueue) (rl : WebRequestRateLimiter)
    (tm : TaskManager) (d : Nat) (e : QueueEntry) (timer : Option Nat) (secs : Int)
    (hrl : q.rate_limiter = some rl)
    (hday : rl.remainingDailyRequests ≠ 0)
    (hmin : rl.remainingMinuteRequests = 0)
    (hne : tm.all_queues_are_empty = false)
    (hmem : (d, e) ∈ tm.queues)
    (hpop : (e.queue.pop_front).1 = SyncTaskQueueValue.RateLimited timer secs) :
    (rl.cooldownActive = false →
      q.pop_front = (SyncTaskQueueValue.RateLimited (some rl.countdownStarts)
          rl.cooldownSecondsLeft,
        { q with rate_limiter := (some { rl with
            cooldownActive := true, countdownStarts := rl.countdownStarts + 1 }) })) ∧
    (rl.cooldownActive = true →
      q.pop_front = (SyncTaskQueueValue.RateLimited none rl.cooldownSecondsLeft,
        { q with rate_limiter := some rl })) ∧
    TaskManagerError.RateLimited timer secs ∈ (tm.pollOnce).errorOut ∧
    d ∈ (tm.pollOnce).queues.map Prod.fst := by
  refine ⟨?_, ?_, ?_, ?_⟩
  · intro hcd
    simp [SyncTaskQueue.pop_front, WebRequestRateLimiter.can_proceed,
      WebRequestRateLimiter.start_countdown, hrl, hday, hmin, hcd]
  · intro hcd
    simp [SyncTaskQueue.pop_front, WebRequestRateLimiter.can_proceed, hrl, hday, hmin, hcd]
  · have h := pollQueues_rate_limited_mem tm.queues d e timer secs hmem hpop
    simp [TaskManager.pollOnce, hne, h]
  · have hkeys := pollQueues_keys tm.queues
    have hd : d ∈ tm.queues.map Prod.fst := List.mem_map_of_mem Prod.fst hmem
    simp [TaskManager.pollOnce, hne, hkeys, hd]

/-- Witness for C6 at the concrete limiter `c6Rl` and manager `c6Tm`. -/
theorem c6_minute_exceeded_cooldown_witness :
    ((c6Rl.cooldownActive = false →
      c6Queue.pop_front = (SyncTaskQueueValue.RateLimited (some c6Rl.countdownStarts)
          c6Rl.cooldownSecondsLeft,
        { c6Queue with rate_limiter := (some { c6Rl with
            cooldownActive := true, countdownStarts := c6Rl.countdownStarts + 1 }) })) ∧
    (c6Rl.cooldownActive = true →
      c6Queue.pop_front = (SyncTaskQueueValue.RateLimited none c6Rl.cooldownSecondsLeft,
        { c6Queue with rate_limiter := some c6Rl })) ∧
    TaskManagerError.RateLimited (some 0) 60 ∈ (c6Tm.pollOnce).errorOut ∧
    0 ∈ (c6Tm.pollOnce).queues.map Prod.fst) :=
  c6_minute_exceeded_cooldown c6Queue c6Rl c6Tm 0 c6Entry (some 0) 60
    rfl (by decide) rfl (by decide) (by decide) (by decide)

/-! ## Claim C7 -/

/-- Claim C7: whenever `pop_front` returns `RateLimited` or
`DailyLimitExceeded`, no task is removed — the queue's task sequence is
unchanged; and in the day-exhaustion scenario (`daily_limit = 2`, five
tasks pushed) exactly 2 tasks are delivered and the remaining 3 stay in
the queue. -/
theorem c7_denied_pop_preserves_queue (q : SyncTaskQueue)
    (h : (q.pop_front).1 = SyncTaskQueueValue.DailyLimitExceeded ∨
         ∃ timer secs, (q.pop_front).1 = SyncTaskQueueValue.RateLimited timer secs) :
    (q.pop_front).2.tasks = q.tasks ∧
    (TaskManager.run 6 c7Tm).taskOut =
      [{ id := 1, dataset_id := some 0 }, { id := 2, dataset_id := some 0 }] ∧
    ((lookupQueue (TaskManager.run 6 c7Tm).queues 0).map (fun e => e.queue.tasks)) =
      some [{ id := 3, dataset_id := some 0 }, { id := 4, dataset_id := some 0 },
            { id := 5, dataset_id := some 0 }] := by
  refine ⟨?_, by decide, by decide⟩
  obtain ⟨ts, orl⟩ := q
  rcases h with h | ⟨timer, secs, h⟩ <;>
    cases orl with
    | none => cases ts <;> simp [SyncTaskQueue.pop_front] at h
    | some rl =>
      by_cases hday : rl.remainingDailyRequests = 0
      · simp [SyncTaskQueue.pop_front, WebRequestRateLimiter.can_proceed, hday]
      · by_cases hmin : rl.remainingMinuteRequests = 0
        · cases hcd : rl.cooldownActive <;>
            simp [SyncTaskQueue.pop_front, WebRequestRateLimiter.can_proceed,
              WebRequestRateLimiter.start_countdown, hday, hmin, hcd]
        · cases ts <;>
            simp [SyncTaskQueue.pop_front, WebRequestRateLimiter.can_proceed,
              hday, hmin] at h

/-- Witness for C7 at the day-exhausted queue `c7Queue`. -/
theorem c7_denied_pop_preserves_queue_witness :
    (c7Queue.pop_front).2.tasks = c7Queue.tasks ∧
    (TaskManager.run 6 c7Tm).taskOut =
      [{ id := 1, dataset_id := some 0 }, { id := 2, dataset_id := some 0 }] ∧
    ((lookupQueue (TaskManager.run 6 c7Tm).queues 0).map (fun e => e.queue.tasks)) =
      some [{ id := 3, dataset_id := some 0 }, { id := 4, dataset_id := some 0 },
            { id := 5, dataset_id := some 0 }] :=
  c7_denied_pop_preserves_queue c7Queue (Or.inl (by decide))

/-! ## Claim C4 -/

/-- Claim C4, counterexample: on `CancelPlan(7)` the supervisor only
removes plan 7 from `plans_to_sync`; no `WorkerCommand::CancelPlan` is
sent (the command log stays empty) and even after the worker's
`PlanCancelled` response the assignment slot still holds plan 7. -/
theorem c4_counterexample :
    (c4Sup.handleCancelPlan 7).plans_to_sync = [] ∧
    (c4Sup.handleCancelPlan 7).workerCmdOut = [] ∧
    ((c4Sup.handleCancelPlan 7).handleWorkerResponse
        (WorkerResponse.PlanCancelled 0 7)).worker_assignment = [(0, some 7)] := by
  decide

/-- Claim C4 (amended): on receiving `CancelPlan(plan_id)` the supervisor
removes `plan_id` from `plans_to_sync` and immediately emits
`SupervisorResponse::PlanCancelled`; it sends no command to any worker and
leaves every worker's assignment slot unchanged. -/
theorem c4_cancel_plan_only_unregisters (s : Supervisor) (plan_id : Nat) :
    (s.handleCancelPlan plan_id).plans_to_sync =
      s.plans_to_sync.filter (fun p => p ≠ plan_id) ∧
    plan_id ∉ (s.handleCancelPlan plan_id).plans_to_sync ∧
    (s.handleCancelPlan plan_id).respOut =
      s.respOut ++ [SupervisorResponse.PlanCancelled plan_id] ∧
    (s.handleCancelPlan plan_id).workerCmdOut = s.workerCmdOut ∧
    (s.handleCancelPlan plan_id).worker_assignment = s.worker_assignment := by
  refine ⟨rfl, ?_, rfl, rfl, rfl⟩
  simp [Supervisor.handleCancelPlan, removePlan]

/-! ## Claim C8 -/

theorem shutdownWait_stuck (s : Supervisor) (hne : s.worker_assignment ≠ []) :
    ∀ fuel, shutdownWait fuel s = none := by
  intro fuel
  induction fuel with
  | zero => rfl
  | succ n ih =>
    have hlen : s.worker_assignment.length > 0 := List.length_pos.mpr hne
    simp [shutdownWait, hlen, ih]

/-- Claim C8: the `Shutdown` arm does broadcast `WorkerCommand::Shutdown`
to every worker, but its wait loop runs inside the same select arm, so the
`ShutdownComplete(worker_id)` worker responses that would empty
`worker_assignment` can never be processed while it spins: with any worker
registered the wait never finishes (no fuel suffices) and
`SupervisorResponse::ShutdownComplete` is never emitted.  Only with no
workers at all does the handler emit `ShutdownComplete` and stop, which is
the behaviour the claim (and spec scenario 5) expect in general. -/
theorem c8_shutdown_wait_never_completes (fuel : Nat) :
    (broadcastShutdown (initSupervisor 1)).workerCmdOut = [(0, WorkerCommand.Shutdown)] ∧
    shutdownWait fuel (broadcastShutdown (initSupervisor 1)) = none ∧
    shutdownWait 1 (broadcastShutdown (initSupervisor 0)) =
      some { broadcastShutdown (initSupervisor 0) with
             stopped := true, respOut := [SupervisorResponse.ShutdownComplete] } := by
  refine ⟨by decide, ?_, by decide⟩
  exact shutdownWait_stuck (broadcastShutdown (initSupervisor 1)) (by decide) fuel

/-! ## Claim C9 -/

/-- The state reached by assigning plan 7 and then cancelling it on a
one-worker supervisor; both commands have been acknowledged. -/
def c9Final : Supervisor :=
  ((initSupervisor 1).handleAssignPlan 7 false).handleCancelPlan 7

/-- Claim C9, counterexample: after `AssignPlan 7` and `CancelPlan 7` have
both been acknowledged, `plans_to_sync` is empty but the worker's slot
still holds `Some 7`, so `|plans_to_sync| = 0 ≠ 1 = ` the number of
distinct `Some` plan ids in `worker_assignment`. -/
theorem c9_counterexample :
    c9Final.respOut =
      [SupervisorResponse.PlanAssigned 7, SupervisorResponse.PlanCancelled 7] ∧
    c9Final.plans_to_sync.length = 0 ∧
    distinctSomeCount c9Final.worker_assignment = 1 ∧
    c9Final.plans_to_sync.length ≠ distinctSomeCount c9Final.worker_assignment := by
  decide

theorem somePlans_eq_nil_of_all_none (l : List (Nat × Option Nat))
    (h : l.all (fun pr => pr.2 = none) = true) : somePlans l = [] := by
  rw [somePlans, List.filterMap_eq_nil_iff]
  intro a ha
  simpa using List.all_eq_true.mp h a ha

theorem somesThenNones_of_all_none (l : List (Nat × Option Nat))
    (h : l.all (fun pr => pr.2 = none) = true) : somesThenNones l = true := by
  cases l with
  | nil => rfl
  | cons q rest =>
    obtain ⟨wid, slot⟩ := q
    have h1 : slot = none := by
      simpa using List.all_eq_true.mp h (wid, slot) (by simp)
    have h2 : rest.all (fun pr => pr.2 = none) = true := by
      rw [List.all_eq_true]
      intro a ha
      exact List.all_eq_true.mp h a (List.mem_cons_of_mem _ ha)
    subst h1
    simpa [somesThenNones] using h2

theorem assignFirstIdle_spec (l : List (Nat × Option Nat)) (p : Nat)
    (hshape : somesThenNones l = true) (hidle : 0 < countIdle l) :
    ∃ w l2, assignFirstIdle l p = (some w, l2) ∧
      somePlans l2 = somePlans l ++ [p] ∧
      countIdle l2 = countIdle l - 1 ∧
      somesThenNones l2 = true := by
  induction l with
  | nil => simp [countIdle] at hidle
  | cons q rest ih =>
    obtain ⟨wid, slot⟩ := q
    cases slot with
    | none =>
      have hrest : rest.all (fun pr => pr.2 = none) = true := by
        simpa [somesThenNones] using hshape
      have hnil : List.filterMap Prod.snd rest = [] :=
        somePlans_eq_nil_of_all_none rest hrest
      refine ⟨wid, (wid, some p) :: rest, by simp [assignFirstIdle], ?_, ?_, ?_⟩
      · simp [somePlans, hnil]
      · simp [countIdle]
      · simpa [somesThenNones] using somesThenNones_of_all_none rest hrest
    | some p0 =>
      have hshape2 : somesThenNones rest = true := by
        simpa [somesThenNones] using hshape
      have hidle2 : 0 < countIdle rest := by
        simpa [countIdle] using hidle
      obtain ⟨w, l2, heq, hsp, hcnt, hshape3⟩ := ih hshape2 hidle2
      refine ⟨w, (wid, some p0) :: l2, by simp [assignFirstIdle, heq], ?_, ?_, ?_⟩
      · simp [somePlans] at hsp ⊢
        exact hsp
      · simpa [countIdle] using hcnt
      · simpa [somesThenNones] using hshape3

theorem assign_fold_invariant (plans : List Nat) (s : Supervisor)
    (hnodup : plans.Nodup)
    (hfresh : ∀ p ∈ plans, p ∉ s.plans_to_sync)
    (hsync : s.plans_to_sync = somePlans s.worker_assignment)
    (hsnodup : s.plans_to_sync.Nodup)
    (hshape : somesThenNones s.worker_assignment = true)
    (hidle : plans.length ≤ countIdle s.worker_assignment) :
    (plans.foldl (fun s2 p => s2.handleAssignPlan p false) s).plans_to_sync =
      s.plans_to_sync ++ plans ∧
    (plans.foldl (fun s2 p => s2.handleAssignPlan p false) s).plans_to_sync =
      somePlans (plans.foldl (fun s2 p => s2.handleAssignPlan p false) s).worker_assignment ∧
    (plans.foldl (fun s2 p => s2.handleAssignPlan p false) s).plans_to_sync.Nodup := by
  induction plans generalizing s with
  | nil => exact ⟨(List.append_nil _).symm, hsync, hsnodup⟩
  | cons p ps ih =>
    have hidle1 : 0 < countIdle s.worker_assignment := by
      simp at hidle
      omega
    obtain ⟨w, l2, heq, hsp, hcnt, hshape2⟩ :=
      assignFirstIdle_spec s.worker_assignment p hshape hidle1
    have hpfresh : p ∉ s.plans_to_sync := hfresh p (List.mem_cons_self p ps)
    have hs1 : s.handleAssignPlan p false =
        { s with
          plans_to_sync := s.plans_to_sync ++ [p],
          worker_assignment := l2,
          workerCmdOut := s.workerCmdOut ++ [(w, WorkerCommand.AssignPlan p false)],
          respOut := s.respOut ++ [SupervisorResponse.PlanAssigned p] } := by
      simp [Supervisor.handleAssignPlan, heq, insertPlan, hpfresh]
    rw [List.foldl_cons, hs1]
    have hnodup2 : ps.Nodup := (List.nodup_cons.mp hnodup).2
    have hpnotps : p ∉ ps := (List.nodup_cons.mp hnodup).1
    have hfresh2 : ∀ q ∈ ps, q ∉ s.plans_to_sync ++ [p] := by
      intro q hq
      simp only [List.mem_append, List.mem_singleton]
      rintro (hin | rfl)
      · exact hfresh q (List.mem_cons_of_mem p hq) hin
      · exact hpnotps hq
    have hsync2 : s.plans_to_sync ++ [p] = somePlans l2 := by
      rw [hsp, hsync]
    have hsnodup2 : (s.plans_to_sync ++ [p]).Nodup := by
      rw [List.nodup_append]
      exact ⟨hsnodup, List.nodup_singleton p, by simpa [List.disjoint_left] using hpfresh⟩
    have hidle2 : ps.length ≤ countIdle l2 := by
      rw [hcnt]
      simp at hidle
      omega
    have := ih { s with
        plans_to_sync := s.plans_to_sync ++ [p],
        worker_assignment := l2,
        workerCmdOut := s.workerCmdOut ++ [(w, WorkerCommand.AssignPlan p false)],
        respOut := s.respOut ++ [SupervisorResponse.PlanAssigned p] }
      hnodup2 hfresh2 hsync2 hsnodup2 hshape2 hidle2
    refine ⟨?_, this.2.1, this.2.2⟩
    rw [this.1]
    simp

theorem filter_some_length (l : List (Nat × Option Nat)) (p : Nat) :
    (l.filter (fun w => w.2 = some p)).length = (somePlans l).count p := by
  induction l with
  | nil => rfl
  | cons q rest ih =>
    obtain ⟨wid, slot⟩ := q
    cases slot with
    | none => simp [somePlans, List.filter_cons, ih]
    | some p0 =>
      by_cases hpp : p0 = p
      · subst hpp
        simp [somePlans, List.filter_cons, List.count_cons, ih]
      · simp [somePlans, List.filter_cons, List.count_cons, hpp, ih, Ne.symm hpp]

theorem initSupervisor_assignment_all_none (n : Nat) :
    ((initSupervisor n).worker_assignment.all (fun pr => pr.2 = none)) = true := by
  rw [List.all_eq_true]
  intro a ha
  simp only [initSupervisor, List.mem_map] at ha
  obtain ⟨i, _, rfl⟩ := ha
  simp

theorem countIdle_initSupervisor (n : Nat) :
    countIdle (initSupervisor n).worker_assignment = n := by
  have : (initSupervisor n).worker_assignment.filter (fun pr => pr.2 = none) =
      (initSupervisor n).worker_assignment := by
    rw [List.filter_eq_self]
    intro a ha
    simpa using List.all_eq_true.mp (initSupervisor_assignment_all_none n) a ha
  rw [countIdle, this]
  simp [initSupervisor]

/-- Claim C9 (amended): as long as only `AssignPlan` commands with pairwise
distinct plan ids are processed, each finding an idle worker (at most as
many plans as workers, from a fresh supervisor), `|plans_to_sync|` equals
the number of distinct plan ids appearing as `Some(_)` in
`worker_assignment`, and each such plan is held by exactly one worker.
`CancelPlan` breaks the equality: it removes the plan from `plans_to_sync`
but leaves the worker's `Some(plan)` slot in place (see the
counterexample). -/
theorem c9_assign_only_equality (n : Nat) (plans : List Nat) (p : Nat)
    (hnodup : plans.Nodup) (hlen : plans.length ≤ n)
    (hp : p ∈ (assignAll n plans).plans_to_sync) :
    (assignAll n plans).plans_to_sync.length =
      distinctSomeCount (assignAll n plans).worker_assignment ∧
    ((assignAll n plans).worker_assignment.filter (fun w => w.2 = some p)).length = 1 := by
  have hall := initSupervisor_assignment_all_none n
  have hinv := assign_fold_invariant plans (initSupervisor n) hnodup
    (by intro q hq; simp [initSupervisor])
    ((somePlans_eq_nil_of_all_none _ hall).symm)
    (by simp [initSupervisor])
    (somesThenNones_of_all_none _ hall)
    (by rw [countIdle_initSupervisor]; exact hlen)
  have hplans : (assignAll n plans).plans_to_sync = plans := by
    have := hinv.1
    simpa [assignAll, initSupervisor] using this
  have hsync : (assignAll n plans).plans_to_sync =
      somePlans (assignAll n plans).worker_assignment := hinv.2.1
  have hnd : (assignAll n plans).plans_to_sync.Nodup := hinv.2.2
  constructor
  · rw [distinctSomeCount, ← hsync, (hnd.dedup)]
  · rw [filter_some_length, ← hsync]
    exact List.count_eq_one_of_mem hnd hp

/-- Witness for C9: two workers, two distinct plans assigned. -/
theorem c9_assign_only_equality_witness :
    (assignAll 2 [5, 9]).plans_to_sync.length =
      distinctSomeCount (assignAll 2 [5, 9]).worker_assignment ∧
    ((assignAll 2 [5, 9]).worker_assignment.filter (fun w => w.2 = some 5)).length = 1 :=
  c9_assign_only_equality 2 [5, 9] 5 (by decide) (by decide) (by decide)

/-! ## Claim C10 -/

/-- Claim C10: `TaskManager::add_tasks` appends (push_back) exactly the
tasks whose `dataset_id` matches a registered queue to that queue, keeps
the set of registered queues unchanged, and silently discards a task whose
`dataset_id` is `None` or unregistered, leaving the whole state
untouched. -/
theorem c10_add_tasks_targets_registered_queues (tm : TaskManager)
    (tasks : List SyncTask) (d : Nat) (e : QueueEntry) (task : SyncTask)
    (hlook : lookupQueue tm.queues d = some e)
    (hbad : task.dataset_id.elim True (fun did => lookupQueue tm.queues did = none)) :
    lookupQueue (tm.add_tasks tasks).queues d =
      some { e with queue := { e.queue with
        tasks := e.queue.tasks ++ tasks.filter (fun t => t.dataset_id = some d) } } ∧
    (tm.add_tasks tasks).queues.map Prod.fst = tm.queues.map Prod.fst ∧
    tm.add_tasks [task] = tm := by
  refine ⟨?_, ?_, ?_⟩
  · exact lookup_foldl_addOneTask tasks tm.queues d e hlook
  · exact foldl_addOneTask_keys tasks tm.queues
  · have hone : addOneTask tm.queues task = tm.queues := by
      cases hdid : task.dataset_id with
      | none => simp [addOneTask, hdid]
      | some did =>
        rw [hdid] at hbad
        simp only [Option.elim] at hbad
        simp [addOneTask, hdid, hbad]
    simp [TaskManager.add_tasks, hone]

/-- Witness for C10: dataset 0 is registered with an empty queue; of the
three added tasks only the one with `dataset_id = some 0` lands in the
queue, and adding a task for the unregistered dataset 5 is a no-op. -/
theorem c10_add_tasks_targets_registered_queues_witness :
    lookupQueue (c10Tm.add_tasks
        [{ id := 1, dataset_id := some 0 }, { id := 2, dataset_id := none },
         { id := 3, dataset_id := some 5 }]).queues 0 =
      some { queue := { tasks := [{ id := 1, dataset_id := some 0 }], rate_limiter := none },
             retries_left := 0 } ∧
    (c10Tm.add_tasks
        [{ id := 1, dataset_id := some 0 }, { id := 2, dataset_id := none },
         { id := 3, dataset_id := some 5 }]).queues.map Prod.fst =
      c10Tm.queues.map Prod.fst ∧
    c10Tm.add_tasks [{ id := 9, dataset_id := some 5 }] = c10Tm :=
  c10_add_tasks_targets_registered_queues c10Tm
    [{ id := 1, dataset_id := some 0 }, { id := 2, dataset_id := none },
     { id := 3, dataset_id := some 5 }] 0
    { queue := { tasks := [], rate_limiter := none }, retries_left := 0 }
    { id := 9, dataset_id := some 5 } (by decide)
    (by show lookupQueue c10Tm.queues 5 = none; decide)

end DataSyncTool
